import Mathlib

/-!
Verification of the AWS account-closure notifier Lambda
(`src/aws-account-closure-notifier-lambda.py`) against its design
specification.

The Python source is shallowly embedded as follows:
  * the CloudTrail `detail` dict becomes the structure `Detail`; each field
    the code accesses is an `Option` (a missing dict key is `none`); the
    nested `requestParameters` / `userIdentity` dicts become an outer
    `Option` (dict key present or not) around an inner `Option`
    (the nested key present or not);
  * Python exceptions are explicit: an expression that can raise returns
    `Except PyErr α`, and an uncaught exception in a procedure shows up as
    `PyResult.result = .error e`;
  * the outbound calls (`sns_client.publish`, `http.request('POST', ...)`)
    are recorded in a trace of `Action`s; whether the remote call itself
    succeeds or raises is decided by an oracle `World`;
  * Python's `str.split(sep)` for a one-character separator is `pySplit`
    on the character list; an f-string interpolation of a value that may be
    `None` is `pyStr` (Python renders `None` as the text "None");
  * `json.dumps` is deterministic on a fixed dict, so the webhook body is
    kept as an explicit `Json` value rather than its serialized text.
-/

namespace Notifier

/-- A Python exception, tagged by kind (and key for `KeyError`). -/
inductive PyErr
  | keyError (k : String)
  | attributeError
  | indexError
  | botoError
  | httpError
deriving DecidableEq, Repr

/-- The CloudTrail `detail` object, with exactly the fields the code reads.
`none` models a missing dict key.  `requestParameters`/`userIdentity` are
nested dicts: the outer `Option` is the dict itself, the inner `Option` the
`accountId`/`principalId` key inside it. -/
structure Detail where
  eventName : Option String
  eventTime : Option String
  requestParameters : Option (Option String)
  userIdentity : Option (Option String)
deriving DecidableEq, Repr

/-- The Lambda event envelope: `event['detail']` may be absent. -/
structure Event where
  detail : Option Detail
deriving DecidableEq, Repr

/-- A JSON value, used for the Slack webhook body built by `json.dumps`. -/
inductive Json
  | str (s : String)
  | arr (xs : List Json)
  | obj (kvs : List (String × Json))

/-- An attempted outbound call: an SNS publish with its subject and message,
or a webhook POST with its JSON body. -/
inductive Action
  | publish (subject message : String)
  | post (body : Json)

/-- Whether an action is the webhook POST. -/
def Action.isPost : Action → Bool
  | .post _ => true
  | _ => false

/-- Whether an action is the SNS publish. -/
def Action.isPublish : Action → Bool
  | .publish _ _ => true
  | _ => false

/-- Oracle for the outcome of the two remote calls: does `sns_client.publish`
return normally, and does `http.request` return normally? -/
structure World where
  publishOk : Bool
  postOk : Bool
deriving DecidableEq, Repr

/-- Result of running a Python procedure: the outbound calls it attempted, in
order, and either a normal return or an uncaught exception. -/
structure PyResult where
  trace : List Action
  result : Except PyErr Unit

/-- `try: ... except Exception: log` — every exception is swallowed and the
procedure returns normally; calls already attempted stay attempted. -/
def pyCatch (r : PyResult) : PyResult := ⟨r.trace, .ok ()⟩

/-- Sequencing of two Python statements: the second runs only if the first
returned normally; traces concatenate. -/
def pySeq (r : PyResult) (k : Unit → PyResult) : PyResult :=
  match r.result with
  | .error e => ⟨r.trace, .error e⟩
  | .ok () => let r2 := k (); ⟨r.trace ++ r2.trace, r2.result⟩

/-- Interpolating a possibly-`None` value into an f-string: Python renders
`None` as the text `"None"`. -/
def pyStr : Option String → String
  | none => "None"
  | some s => s

/-- Python `str.split(sep)` for a one-character separator, on the character
list.  `"".split(sep) == [""]`, and a trailing separator yields a trailing
empty segment, exactly as in Python. -/
def pySplit (sep : Char) : List Char → List (List Char)
  | [] => [[]]
  | c :: cs =>
    if c = sep then [] :: pySplit sep cs
    else
      match pySplit sep cs with
      | [] => [[c]]
      | g :: gs => (c :: g) :: gs

/-- `message_detail.get('requestParameters').get('accountId')`: raises
`AttributeError` when `requestParameters` is missing (`None.get(...)`),
otherwise yields the (possibly missing) `accountId`. -/
def getAccountId (d : Detail) : Except PyErr (Option String) :=
  match d.requestParameters with
  | none => .error .attributeError
  | some a => .ok a

/-- `message_detail.get('userIdentity').get('principalId').split(':')[1]`:
`AttributeError` when `userIdentity` or `principalId` is missing,
`IndexError` when the split has no second segment, otherwise segment 1. -/
def getPrincipal (d : Detail) : Except PyErr String :=
  match d.userIdentity with
  | none => .error .attributeError
  | some none => .error .attributeError
  | some (some pid) =>
    match pySplit ':' pid.toList with
    | _ :: second :: _ => .ok (String.mk second)
    | _ => .error .indexError

/-- The SNS `Subject` f-string: `f"AWS {message_detail.get('eventName')} Notification"`. -/
def snsSubject (d : Detail) : String :=
  "AWS " ++ pyStr d.eventName ++ " Notification"

/-- The literal text of the SNS `Message` f-string, given the four
interpolated values. -/
def snsBodyText (en acct p t : String) : String :=
  en ++ " action has been made for Account " ++ acct ++ "\n\n" ++
  "Action: " ++ en ++ " \n" ++
  "   Target Account: " ++ acct ++ "\n" ++
  "   Calling Principal: " ++ p ++ " \n" ++
  "   TimeStamp: " ++ t

/-- The SNS `Message` f-string.  Evaluated left to right as in Python: the
`accountId` access (line 47) raises before the principal access (line 50)
can. -/
def snsMessage (d : Detail) : Except PyErr String := do
  let acct ← getAccountId d
  let p ← getPrincipal d
  pure (snsBodyText (pyStr d.eventName) (pyStr acct) p (pyStr d.eventTime))

/-- The Slack block document built by `send_slack_notification` (lines
64-97), given the four interpolated values. -/
def slackDoc (en acct p t : String) : Json :=
  .obj [("blocks", .arr
    [ .obj [("type", .str "header"),
            ("text", .obj [("type", .str "plain_text"),
                           ("text", .str ("AWS " ++ en ++ " Notification"))])],
      .obj [("type", .str "section"),
            ("fields", .arr
              [ .obj [("type", .str "mrkdwn"), ("text", .str ("*Action:*\n" ++ en))],
                .obj [("type", .str "mrkdwn"), ("text", .str ("*Target Account:*\n" ++ acct))],
                .obj [("type", .str "mrkdwn"), ("text", .str ("*Calling Principal:*\n" ++ p))],
                .obj [("type", .str "mrkdwn"), ("text", .str ("*TimeStamp:*\n" ++ t))] ])] ])]

/-- Building `message_body` in `send_slack_notification`: the f-strings are
evaluated in order, so a missing `requestParameters` raises before a bad
`principalId` does.  This happens OUTSIDE the function's `try`. -/
def slackMessageBody (d : Detail) : Except PyErr Json := do
  let acct ← getAccountId d
  let p ← getPrincipal d
  pure (slackDoc (pyStr d.eventName) (pyStr acct) p (pyStr d.eventTime))

/-- The `try`-block of `send_sns_notification`: build `Subject` and
`Message` (may raise), then call `sns_client.publish` (attempted either way;
raises when the world says so). -/
def snsTry (w : World) (d : Detail) : PyResult :=
  match snsMessage d with
  | .error e => ⟨[], .error e⟩
  | .ok msg =>
    if w.publishOk then ⟨[.publish (snsSubject d) msg], .ok ()⟩
    else ⟨[.publish (snsSubject d) msg], .error .botoError⟩

/-- `send_sns_notification` (lines 35-54): the whole body, formatting
included, sits inside `try: ... except Exception: logger.exception(...)`. -/
def send_sns_notification (w : World) (d : Detail) : PyResult :=
  pyCatch (snsTry w d)

/-- The `try`-block of `send_slack_notification`: the POST is attempted and
raises when the world says so. -/
def slackTry (w : World) (body : Json) : PyResult :=
  if w.postOk then ⟨[.post body], .ok ()⟩
  else ⟨[.post body], .error .httpError⟩

/-- `send_slack_notification` (lines 57-109): `message_body` is built before
the `try`, so a formatting exception propagates to the caller; only the
POST itself is inside `try/except`. -/
def send_slack_notification (w : World) (d : Detail) : PyResult :=
  match slackMessageBody d with
  | .error e => ⟨[], .error e⟩
  | .ok body => pyCatch (slackTry w body)

/-- The filter allow-list of line 126. -/
def allowList : List String := ["CloseAccount", "RemoveAccountFromOrganization"]

/-- `lambda_handler` (lines 113-134).  `event['detail']` and
`message_detail['eventName']` are bracket accesses (KeyError when missing);
on a match, the info log of line 127 accesses
`message_detail['requestParameters']['accountId']` with brackets before any
dispatch; then SNS dispatch, then Slack dispatch when the flag is set. -/
def lambda_handler (w : World) (slackNotification : Bool) (event : Event) : PyResult :=
  match event.detail with
  | none => ⟨[], .error (.keyError "detail")⟩
  | some d =>
    match d.eventName with
    | none => ⟨[], .error (.keyError "eventName")⟩
    | some en =>
      if en ∈ allowList then
        match d.requestParameters with
        | none => ⟨[], .error (.keyError "requestParameters")⟩
        | some none => ⟨[], .error (.keyError "accountId")⟩
        | some (some _) =>
          pySeq (send_sns_notification w d) (fun _ =>
            if slackNotification then send_slack_notification w d
            else ⟨[], .ok ()⟩)
      else ⟨[], .ok ()⟩

/-- A detail with every field the code reads present, and a principal with a
colon-delimited second segment. -/
def WellFormed (d : Detail) : Prop :=
  (∃ en, d.eventName = some en) ∧ (∃ t, d.eventTime = some t) ∧
  (∃ a, d.requestParameters = some (some a)) ∧
  (∃ pid, d.userIdentity = some (some pid) ∧ ':' ∈ pid.toList)

/-- The end-to-end scenario event of the specification, section 8. -/
def sampleDetail : Detail :=
  ⟨some "CloseAccount", some "2024-01-01T00:00:00Z",
   some (some "123456789012"), some (some "AIDAEXAMPLE:bob")⟩

/-- The specification's principal-extraction example. -/
def aliceDetail : Detail :=
  ⟨some "CloseAccount", some "2024-01-01T00:00:00Z",
   some (some "123456789012"), some (some "AIDAEXAMPLE:alice")⟩

/-- A detail whose `principalId` has no colon-delimited second segment. -/
def noColonDetail : Detail :=
  ⟨some "CloseAccount", some "2024-01-01T00:00:00Z",
   some (some "123456789012"), some (some "nocolon")⟩

/-- The specification's ignored-event scenario: `CreateAccount`. -/
def otherDetail : Detail :=
  ⟨some "CreateAccount", some "2024-01-01T00:00:00Z",
   some (some "123456789012"), some (some "AIDAEXAMPLE:bob")⟩

/-! ### Properties of the Python split embedding -/

theorem pySplit_ne_nil (sep : Char) (l : List Char) : pySplit sep l ≠ [] := by
  cases l with
  | nil => simp [pySplit]
  | cons c cs =>
    simp only [pySplit]
    by_cases h : c = sep
    · simp [h]
    · simp only [if_neg h]
      cases hs : pySplit sep cs <;> simp

/-- `s.split(sep)` has one more segment than `s` has separators. -/
theorem pySplit_length (sep : Char) (l : List Char) :
    (pySplit sep l).length = l.count sep + 1 := by
  induction l with
  | nil => simp [pySplit]
  | cons c cs ih =>
    simp only [pySplit]
    by_cases h : c = sep
    · subst h
      simp [List.count_cons, ih]
    · cases hs : pySplit sep cs with
      | nil => exact absurd hs (pySplit_ne_nil sep cs)
      | cons g gs =>
        rw [hs] at ih
        simp only [if_neg h, List.length_cons, List.count_cons]
        simp only [List.length_cons] at ih
        have hbe : ¬ (c == sep) = true := by simpa using h
        simp [hbe, ih]

/-- A string without the separator splits into the single segment that is
the whole string. -/
theorem pySplit_not_mem (sep : Char) (l : List Char) (h : sep ∉ l) :
    pySplit sep l = [l] := by
  induction l with
  | nil => rfl
  | cons c cs ih =>
    have hc : ¬ c = sep := fun he => h (he ▸ List.mem_cons_self c cs)
    have hcs : sep ∉ cs := fun hm => h (List.mem_cons_of_mem c hm)
    simp only [pySplit, if_neg hc, ih hcs]

/-- A string containing the separator splits into at least two segments, so
index 1 exists. -/
theorem pySplit_two_of_mem (sep : Char) (l : List Char) (h : sep ∈ l) :
    ∃ s0 s1 rest, pySplit sep l = s0 :: s1 :: rest := by
  have hlen : 2 ≤ (pySplit sep l).length := by
    rw [pySplit_length]
    have hpos : 0 < l.count sep := List.count_pos_iff.mpr h
    omega
  match hs : pySplit sep l with
  | [] => rw [hs] at hlen; simp at hlen
  | [s0] => rw [hs] at hlen; simp at hlen
  | s0 :: s1 :: rest => exact ⟨s0, s1, rest, rfl⟩

/-! ### Computation lemmas about the embedded functions -/

theorem getPrincipal_no_colon (d : Detail) (pid : String)
    (hu : d.userIdentity = some (some pid)) (hc : ':' ∉ pid.toList) :
    getPrincipal d = Except.error PyErr.indexError := by
  have h2 : pySplit ':' pid.data = [pid.data] := pySplit_not_mem ':' pid.toList hc
  simp [getPrincipal, hu, h2]

theorem getPrincipal_of_split (d : Detail) (pid : String)
    (s0 s1 : List Char) (rest : List (List Char))
    (hu : d.userIdentity = some (some pid))
    (hs : pySplit ':' pid.toList = s0 :: s1 :: rest) :
    getPrincipal d = Except.ok (String.mk s1) := by
  have h2 : pySplit ':' pid.data = s0 :: s1 :: rest := hs
  simp [getPrincipal, hu, h2]

theorem snsMessage_wf (en t a pid p : String)
    (hp : getPrincipal ⟨some en, some t, some (some a), some (some pid)⟩ =
      Except.ok p) :
    snsMessage ⟨some en, some t, some (some a), some (some pid)⟩ =
      Except.ok (snsBodyText en a p t) := by
  simp only [snsMessage, getAccountId, hp]
  rfl

theorem slackMessageBody_wf (en t a pid p : String)
    (hp : getPrincipal ⟨some en, some t, some (some a), some (some pid)⟩ =
      Except.ok p) :
    slackMessageBody ⟨some en, some t, some (some a), some (some pid)⟩ =
      Except.ok (slackDoc en a p t) := by
  simp only [slackMessageBody, getAccountId, hp]
  rfl

/-- `send_sns_notification` on a well-formed detail attempts exactly one
publish, whatever the remote outcome, and returns normally. -/
theorem send_sns_wf (w : World) (d : Detail) (msg : String)
    (hm : snsMessage d = Except.ok msg) :
    send_sns_notification w d = ⟨[Action.publish (snsSubject d) msg], Except.ok ()⟩ := by
  cases hpub : w.publishOk <;>
    simp [send_sns_notification, snsTry, hm, hpub, pyCatch]

/-- `send_slack_notification` on a detail whose body formats attempts exactly
one POST, whatever the remote outcome, and returns normally. -/
theorem send_slack_wf (w : World) (d : Detail) (body : Json)
    (hb : slackMessageBody d = Except.ok body) :
    send_slack_notification w d = ⟨[Action.post body], Except.ok ()⟩ := by
  cases hpost : w.postOk <;>
    simp [send_slack_notification, slackTry, hb, hpost, pyCatch]

/-- The handler on a well-formed matching event: one publish, then one POST
exactly when the flag is set, and a normal return. -/
theorem handler_wf (w : World) (flag : Bool) (en t a pid p : String)
    (hp : getPrincipal ⟨some en, some t, some (some a), some (some pid)⟩ =
      Except.ok p)
    (hen : en ∈ allowList) :
    lambda_handler w flag ⟨some ⟨some en, some t, some (some a), some (some pid)⟩⟩ =
      ⟨Action.publish (snsSubject ⟨some en, some t, some (some a), some (some pid)⟩)
          (snsBodyText en a p t) ::
        (if flag then [Action.post (slackDoc en a p t)] else []),
       Except.ok ()⟩ := by
  have hm := snsMessage_wf en t a pid p hp
  have hb := slackMessageBody_wf en t a pid p hp
  cases flag <;>
    simp [lambda_handler, hen, pySeq, send_sns_wf w _ _ hm, send_slack_wf w _ _ hb]

/-- The handler on an event whose `eventName` is outside the allow-list:
no calls, normal return. -/
theorem handler_not_match (w : World) (flag : Bool) (d : Detail) (en : String)
    (hd : d.eventName = some en) (hen : en ∉ allowList) :
    lambda_handler w flag ⟨some d⟩ = ⟨[], Except.ok ()⟩ := by
  simp [lambda_handler, hd, hen]

theorem snsMessage_eq (d : Detail) (acct : Option String) (p : String)
    (ha : getAccountId d = Except.ok acct) (hp : getPrincipal d = Except.ok p) :
    snsMessage d =
      Except.ok (snsBodyText (pyStr d.eventName) (pyStr acct) p (pyStr d.eventTime)) := by
  simp only [snsMessage, ha, hp]
  rfl

theorem snsMessage_errAcct (d : Detail) (e : PyErr)
    (ha : getAccountId d = Except.error e) : snsMessage d = Except.error e := by
  simp only [snsMessage, ha]
  rfl

theorem snsMessage_errPrincipal (d : Detail) (acct : Option String) (e : PyErr)
    (ha : getAccountId d = Except.ok acct)
    (hp : getPrincipal d = Except.error e) : snsMessage d = Except.error e := by
  simp only [snsMessage, ha, hp]
  rfl

theorem slackMessageBody_eq (d : Detail) (acct : Option String) (p : String)
    (ha : getAccountId d = Except.ok acct) (hp : getPrincipal d = Except.ok p) :
    slackMessageBody d =
      Except.ok (slackDoc (pyStr d.eventName) (pyStr acct) p (pyStr d.eventTime)) := by
  simp only [slackMessageBody, ha, hp]
  rfl

theorem slackMessageBody_errPrincipal (d : Detail) (acct : Option String) (e : PyErr)
    (ha : getAccountId d = Except.ok acct)
    (hp : getPrincipal d = Except.error e) :
    slackMessageBody d = Except.error e := by
  simp only [slackMessageBody, ha, hp]
  rfl

/-- The SNS dispatcher's trace never contains a webhook POST. -/
theorem snsTry_no_post (w : World) (d : Detail) :
    (snsTry w d).trace.filter Action.isPost = [] := by
  cases hm : snsMessage d <;> cases hpub : w.publishOk <;>
    simp [snsTry, hm, hpub, Action.isPost]

/-! ### Claim theorems -/

/-- C7: when the chat-notification flag is false, the webhook POST is never
invoked — the handler's trace contains no `Action.post`, for every event and
every remote outcome. -/
theorem C7_flag_gating (w : World) (ev : Event) :
    (lambda_handler w false ev).trace.filter Action.isPost = [] := by
  obtain ⟨od⟩ := ev
  cases od with
  | none => rfl
  | some d =>
    cases he : d.eventName with
    | none => simp [lambda_handler, he]
    | some en =>
      by_cases hmem : en ∈ allowList
      · cases hrp : d.requestParameters with
        | none => simp [lambda_handler, he, hmem, hrp]
        | some acct =>
          cases acct with
          | none => simp [lambda_handler, he, hmem, hrp]
          | some a =>
            simp [lambda_handler, he, hmem, hrp, pySeq, send_sns_notification,
                  pyCatch, List.filter_append, snsTry_no_post]
      · simp [lambda_handler, he, hmem]

/-- C8: an event envelope lacking the `detail` key fails extraction with a
`KeyError` that propagates out of the handler; no notification is attempted
(empty trace). -/
theorem C8_missing_detail (w : World) (flag : Bool) :
    lambda_handler w flag ⟨none⟩ = ⟨[], Except.error (PyErr.keyError "detail")⟩ :=
  rfl

/-- C9: formatting is a pure, deterministic transformation — the same detail
object yields identical plain-text subject, plain-text body, and structured
block output every time. -/
theorem C9_formatting_deterministic (d1 d2 : Detail) (h : d1 = d2) :
    snsSubject d1 = snsSubject d2 ∧ snsMessage d1 = snsMessage d2 ∧
      slackMessageBody d1 = slackMessageBody d2 := by
  subst h
  exact ⟨rfl, rfl, rfl⟩

/-- C9 witness at the specification's sample detail. -/
theorem C9_formatting_deterministic_witness :
    snsSubject sampleDetail = snsSubject sampleDetail ∧
      snsMessage sampleDetail = snsMessage sampleDetail ∧
      slackMessageBody sampleDetail = slackMessageBody sampleDetail :=
  C9_formatting_deterministic sampleDetail sampleDetail rfl

/-- C10: `send_sns_notification` is total — it returns normally on every
input and in every world, because formatting sits inside the same
`try/except` as the publish; when formatting raises, the SNS message is
simply skipped (empty trace) and the function still returns normally. -/
theorem C10_sns_total (w : World) (d : Detail) :
    (send_sns_notification w d).result = Except.ok ()
  ∧ (∀ e, snsMessage d = Except.error e →
      send_sns_notification w d = ⟨[], Except.ok ()⟩) := by
  refine ⟨rfl, ?_⟩
  intro e he
  simp [send_sns_notification, snsTry, he, pyCatch]

/-- C10 witness: on the colon-less principal, formatting raises `IndexError`
inside the dispatcher, which still returns normally with no publish. -/
theorem C10_sns_total_witness :
    send_sns_notification ⟨true, true⟩ noColonDetail = ⟨[], Except.ok ()⟩ :=
  (C10_sns_total ⟨true, true⟩ noColonDetail).2 PyErr.indexError rfl

/-- C2 counterexample: a detail whose `principalId` has no colon does make
principal formatting fail with `IndexError`, but with the chat flag disabled
the invocation still completes successfully — the error is swallowed inside
`send_sns_notification`, so the malformed input is not fatal as claimed. -/
theorem C2_not_fatal_counterexample :
    getPrincipal noColonDetail = Except.error PyErr.indexError
  ∧ (lambda_handler ⟨true, true⟩ false ⟨some noColonDetail⟩).result = Except.ok () :=
  ⟨rfl, rfl⟩

/-- C2 (amended): on a matching detail whose `principalId` lacks a
colon-delimited second segment, principal formatting fails with `IndexError`
and no notification is attempted on either channel (empty trace); on the SNS
path the error is caught inside the dispatcher and only logged, so with the
chat flag disabled the invocation still succeeds, while with the chat flag
enabled the Slack body construction raises the error before its `try` and
the invocation fails. -/
theorem C2_malformed_principal (w : World) (en t a pid : String)
    (hc : ':' ∉ pid.toList) (hen : en ∈ allowList) :
    getPrincipal ⟨some en, some t, some (some a), some (some pid)⟩ =
      Except.error PyErr.indexError
  ∧ lambda_handler w false ⟨some ⟨some en, some t, some (some a), some (some pid)⟩⟩ =
      ⟨[], Except.ok ()⟩
  ∧ lambda_handler w true ⟨some ⟨some en, some t, some (some a), some (some pid)⟩⟩ =
      ⟨[], Except.error PyErr.indexError⟩ := by
  have hp := getPrincipal_no_colon ⟨some en, some t, some (some a), some (some pid)⟩
    pid rfl hc
  have hm := snsMessage_errPrincipal ⟨some en, some t, some (some a), some (some pid)⟩
    (some a) PyErr.indexError rfl hp
  have hb := slackMessageBody_errPrincipal ⟨some en, some t, some (some a), some (some pid)⟩
    (some a) PyErr.indexError rfl hp
  refine ⟨hp, ?_, ?_⟩
  · simp [lambda_handler, hen, pySeq, send_sns_notification, snsTry, hm, pyCatch]
  · simp [lambda_handler, hen, pySeq, send_sns_notification, snsTry, hm, pyCatch,
          send_slack_notification, hb]

/-- C2 witness for the amended claim, at the concrete colon-less detail. -/
theorem C2_malformed_principal_witness :
    getPrincipal noColonDetail = Except.error PyErr.indexError
  ∧ lambda_handler ⟨true, true⟩ false ⟨some noColonDetail⟩ = ⟨[], Except.ok ()⟩
  ∧ lambda_handler ⟨true, true⟩ true ⟨some noColonDetail⟩ =
      ⟨[], Except.error PyErr.indexError⟩ :=
  C2_malformed_principal ⟨true, true⟩ "CloseAccount" "2024-01-01T00:00:00Z"
    "123456789012" "nocolon" (by decide) (by decide)

/-- C3: each dispatch operation swallows its own failure and returns
normally in every world; if the publish throws, the webhook POST is still
attempted when the flag is enabled; and the invocation completes
successfully whatever the remote outcomes. -/
theorem C3_dispatch_independence (en t a pid : String)
    (hc : ':' ∈ pid.toList) (hen : en ∈ allowList) :
    (∀ w : World,
      (send_sns_notification w ⟨some en, some t, some (some a), some (some pid)⟩).result =
        Except.ok ())
  ∧ (∀ w : World,
      (send_slack_notification w ⟨some en, some t, some (some a), some (some pid)⟩).result =
        Except.ok ())
  ∧ (∀ w : World, w.publishOk = false →
      (∃ j, Action.post j ∈
        (lambda_handler w true
          ⟨some ⟨some en, some t, some (some a), some (some pid)⟩⟩).trace)
      ∧ (lambda_handler w true
          ⟨some ⟨some en, some t, some (some a), some (some pid)⟩⟩).result =
            Except.ok ())
  ∧ (∀ (w : World) (flag : Bool),
      (lambda_handler w flag
        ⟨some ⟨some en, some t, some (some a), some (some pid)⟩⟩).result =
          Except.ok ()) := by
  obtain ⟨s0, s1, rest, hs⟩ := pySplit_two_of_mem ':' pid.toList hc
  have hp := getPrincipal_of_split ⟨some en, some t, some (some a), some (some pid)⟩
    pid s0 s1 rest rfl hs
  have hb := slackMessageBody_wf en t a pid (String.mk s1) hp
  refine ⟨fun w => rfl, fun w => ?_, fun w hw => ?_, fun w flag => ?_⟩
  · rw [send_slack_wf w _ _ hb]
  · rw [handler_wf w true en t a pid (String.mk s1) hp hen]
    exact ⟨⟨slackDoc en a (String.mk s1) t, by simp⟩, rfl⟩
  · rw [handler_wf w flag en t a pid (String.mk s1) hp hen]

/-- C3 witness: publish fails in world `⟨false, true⟩`, yet the POST is
attempted and the invocation succeeds. -/
theorem C3_dispatch_independence_witness :
    (∃ j, Action.post j ∈
      (lambda_handler ⟨false, true⟩ true
        ⟨some ⟨some "CloseAccount", some "2024-01-01T00:00:00Z",
          some (some "123456789012"), some (some "AIDAEXAMPLE:bob")⟩⟩).trace)
  ∧ (lambda_handler ⟨false, true⟩ true
      ⟨some ⟨some "CloseAccount", some "2024-01-01T00:00:00Z",
        some (some "123456789012"), some (some "AIDAEXAMPLE:bob")⟩⟩).result =
        Except.ok () :=
  (C3_dispatch_independence "CloseAccount" "2024-01-01T00:00:00Z" "123456789012"
    "AIDAEXAMPLE:bob" (by decide) (by decide)).2.2.1 ⟨false, true⟩ rfl

/-- C4: when `principalId` contains a colon, the split has a second segment,
the extracted calling principal is exactly segment index 1, and every
plain-text body and every structured block document built from the detail
carries that segment as the calling principal. -/
theorem C4_principal_second_segment (d : Detail) (pid : String)
    (hu : d.userIdentity = some (some pid)) (hc : ':' ∈ pid.toList) :
    ∃ s0 s1 rest, pySplit ':' pid.toList = s0 :: s1 :: rest
      ∧ getPrincipal d = Except.ok (String.mk s1)
      ∧ (∀ s, snsMessage d = Except.ok s →
          ∃ en acct t, s = snsBodyText en acct (String.mk s1) t)
      ∧ (∀ j, slackMessageBody d = Except.ok j →
          ∃ en acct t, j = slackDoc en acct (String.mk s1) t) := by
  obtain ⟨s0, s1, rest, hs⟩ := pySplit_two_of_mem ':' pid.toList hc
  have hp := getPrincipal_of_split d pid s0 s1 rest hu hs
  refine ⟨s0, s1, rest, hs, hp, ?_, ?_⟩
  · intro s hsn
    cases ha : getAccountId d with
    | error e => rw [snsMessage_errAcct d e ha] at hsn; exact absurd hsn (by simp)
    | ok acct =>
      rw [snsMessage_eq d acct (String.mk s1) ha hp] at hsn
      exact ⟨pyStr d.eventName, pyStr acct, pyStr d.eventTime,
        (Except.ok.injEq _ _ ▸ hsn).symm⟩
  · intro j hsl
    cases ha : getAccountId d with
    | error e =>
      rw [show slackMessageBody d = Except.error e by
        simp only [slackMessageBody, ha]; rfl] at hsl
      exact absurd hsl (by simp)
    | ok acct =>
      rw [slackMessageBody_eq d acct (String.mk s1) ha hp] at hsl
      exact ⟨pyStr d.eventName, pyStr acct, pyStr d.eventTime,
        (Except.ok.injEq _ _ ▸ hsl).symm⟩

/-- C4 witness: the specification's example — principal identifier
`AIDAEXAMPLE:alice` splits with second segment `alice`. -/
theorem C4_principal_second_segment_witness :
    (∃ s0 s1 rest, pySplit ':' ("AIDAEXAMPLE:alice").toList = s0 :: s1 :: rest
      ∧ getPrincipal aliceDetail = Except.ok (String.mk s1)
      ∧ (∀ s, snsMessage aliceDetail = Except.ok s →
          ∃ en acct t, s = snsBodyText en acct (String.mk s1) t)
      ∧ (∀ j, slackMessageBody aliceDetail = Except.ok j →
          ∃ en acct t, j = slackDoc en acct (String.mk s1) t))
  ∧ getPrincipal aliceDetail = Except.ok "alice" :=
  ⟨C4_principal_second_segment aliceDetail "AIDAEXAMPLE:alice" rfl (by decide), rfl⟩

/-- C5: on a matching event, the plain-text notification published to the
topic has subject exactly `AWS <eventName> Notification` and a body listing
action, target account, calling principal, and timestamp one per line,
with the values verbatim from the detail fields; the handler's first
attempted call is that very publish. -/
theorem C5_sns_plaintext (w : World) (flag : Bool) (en t a pid p : String)
    (hp : getPrincipal ⟨some en, some t, some (some a), some (some pid)⟩ =
      Except.ok p)
    (hen : en ∈ allowList) :
    snsSubject ⟨some en, some t, some (some a), some (some pid)⟩ =
      "AWS " ++ en ++ " Notification"
  ∧ snsMessage ⟨some en, some t, some (some a), some (some pid)⟩ =
      Except.ok (en ++ " action has been made for Account " ++ a ++ "\n\n" ++
        "Action: " ++ en ++ " \n" ++
        "   Target Account: " ++ a ++ "\n" ++
        "   Calling Principal: " ++ p ++ " \n" ++
        "   TimeStamp: " ++ t)
  ∧ ∃ rest,
      (lambda_handler w flag
        ⟨some ⟨some en, some t, some (some a), some (some pid)⟩⟩).trace =
      Action.publish ("AWS " ++ en ++ " Notification")
        (en ++ " action has been made for Account " ++ a ++ "\n\n" ++
         "Action: " ++ en ++ " \n" ++
         "   Target Account: " ++ a ++ "\n" ++
         "   Calling Principal: " ++ p ++ " \n" ++
         "   TimeStamp: " ++ t) :: rest := by
  have hm := snsMessage_wf en t a pid p hp
  refine ⟨rfl, ?_, ?_⟩
  · rw [hm]
    rfl
  · rw [handler_wf w flag en t a pid p hp hen]
    exact ⟨_, rfl⟩

/-- C5 witness at the specification's end-to-end scenario event. -/
theorem C5_sns_plaintext_witness :
    snsSubject sampleDetail = "AWS " ++ "CloseAccount" ++ " Notification"
  ∧ snsMessage sampleDetail =
      Except.ok ("CloseAccount" ++ " action has been made for Account " ++
        "123456789012" ++ "\n\n" ++
        "Action: " ++ "CloseAccount" ++ " \n" ++
        "   Target Account: " ++ "123456789012" ++ "\n" ++
        "   Calling Principal: " ++ "bob" ++ " \n" ++
        "   TimeStamp: " ++ "2024-01-01T00:00:00Z")
  ∧ ∃ rest, (lambda_handler ⟨true, true⟩ true ⟨some sampleDetail⟩).trace =
      Action.publish ("AWS " ++ "CloseAccount" ++ " Notification")
        ("CloseAccount" ++ " action has been made for Account " ++
         "123456789012" ++ "\n\n" ++
         "Action: " ++ "CloseAccount" ++ " \n" ++
         "   Target Account: " ++ "123456789012" ++ "\n" ++
         "   Calling Principal: " ++ "bob" ++ " \n" ++
         "   TimeStamp: " ++ "2024-01-01T00:00:00Z") :: rest :=
  C5_sns_plaintext ⟨true, true⟩ true "CloseAccount" "2024-01-01T00:00:00Z"
    "123456789012" "AIDAEXAMPLE:bob" "bob" rfl (by decide)

/-- C6: on a matching event with the chat flag enabled, the webhook POST
body is a JSON document with exactly a header block (plain_text text equal
to the plain-text subject) and a section block of exactly four mrkdwn fields
labeled Action, Target Account, Calling Principal and TimeStamp, with values
from the same detail; every POST the handler attempts carries that body. -/
theorem C6_slack_blocks (w : World) (en t a pid p : String)
    (hp : getPrincipal ⟨some en, some t, some (some a), some (some pid)⟩ =
      Except.ok p)
    (hen : en ∈ allowList) :
    slackMessageBody ⟨some en, some t, some (some a), some (some pid)⟩ =
      Except.ok (Json.obj [("blocks", Json.arr
        [ Json.obj [("type", Json.str "header"),
            ("text", Json.obj [("type", Json.str "plain_text"),
              ("text", Json.str
                (snsSubject ⟨some en, some t, some (some a), some (some pid)⟩))])],
          Json.obj [("type", Json.str "section"),
            ("fields", Json.arr
              [ Json.obj [("type", Json.str "mrkdwn"),
                  ("text", Json.str ("*Action:*\n" ++ en))],
                Json.obj [("type", Json.str "mrkdwn"),
                  ("text", Json.str ("*Target Account:*\n" ++ a))],
                Json.obj [("type", Json.str "mrkdwn"),
                  ("text", Json.str ("*Calling Principal:*\n" ++ p))],
                Json.obj [("type", Json.str "mrkdwn"),
                  ("text", Json.str ("*TimeStamp:*\n" ++ t))] ])] ])])
  ∧ Action.post (slackDoc en a p t) ∈
      (lambda_handler w true
        ⟨some ⟨some en, some t, some (some a), some (some pid)⟩⟩).trace
  ∧ (∀ j, Action.post j ∈
      (lambda_handler w true
        ⟨some ⟨some en, some t, some (some a), some (some pid)⟩⟩).trace →
      j = slackDoc en a p t) := by
  have hb := slackMessageBody_wf en t a pid p hp
  refine ⟨?_, ?_, ?_⟩
  · rw [hb]
    rfl
  · rw [handler_wf w true en t a pid p hp hen]
    simp
  · rw [handler_wf w true en t a pid p hp hen]
    intro j hj
    simp at hj
    exact hj

/-- C6 witness at the specification's end-to-end scenario event. -/
theorem C6_slack_blocks_witness :
    slackMessageBody sampleDetail =
      Except.ok (Json.obj [("blocks", Json.arr
        [ Json.obj [("type", Json.str "header"),
            ("text", Json.obj [("type", Json.str "plain_text"),
              ("text", Json.str (snsSubject sampleDetail))])],
          Json.obj [("type", Json.str "section"),
            ("fields", Json.arr
              [ Json.obj [("type", Json.str "mrkdwn"),
                  ("text", Json.str ("*Action:*\n" ++ "CloseAccount"))],
                Json.obj [("type", Json.str "mrkdwn"),
                  ("text", Json.str ("*Target Account:*\n" ++ "123456789012"))],
                Json.obj [("type", Json.str "mrkdwn"),
                  ("text", Json.str ("*Calling Principal:*\n" ++ "bob"))],
                Json.obj [("type", Json.str "mrkdwn"),
                  ("text", Json.str ("*TimeStamp:*\n" ++ "2024-01-01T00:00:00Z"))] ])] ])])
  ∧ Action.post (slackDoc "CloseAccount" "123456789012" "bob" "2024-01-01T00:00:00Z") ∈
      (lambda_handler ⟨true, true⟩ true ⟨some sampleDetail⟩).trace
  ∧ (∀ j, Action.post j ∈ (lambda_handler ⟨true, true⟩ true ⟨some sampleDetail⟩).trace →
      j = slackDoc "CloseAccount" "123456789012" "bob" "2024-01-01T00:00:00Z") :=
  C6_slack_blocks ⟨true, true⟩ "CloseAccount" "2024-01-01T00:00:00Z" "123456789012"
    "AIDAEXAMPLE:bob" "bob" rfl (by decide)

/-- C1: dispatch is gated exactly by the allow-list — an event whose
`eventName` is outside {CloseAccount, RemoveAccountFromOrganization} makes
no dispatch call and the handler terminates successfully with an empty
trace; any attempted call implies the event matched; and a well-formed
matching event gets a publish, plus a POST when the flag is enabled. -/
theorem C1_dispatch_iff_allowlisted (w : World) (flag : Bool) (ev : Event) :
    (∀ d en, ev.detail = some d → d.eventName = some en → en ∉ allowList →
      lambda_handler w flag ev = ⟨[], Except.ok ()⟩)
  ∧ ((lambda_handler w flag ev).trace ≠ [] →
      ∃ d en, ev.detail = some d ∧ d.eventName = some en ∧ en ∈ allowList)
  ∧ (∀ d en, ev.detail = some d → d.eventName = some en → en ∈ allowList →
      WellFormed d →
      (∃ s m, Action.publish s m ∈ (lambda_handler w flag ev).trace) ∧
      (flag = true → ∃ j, Action.post j ∈ (lambda_handler w flag ev).trace)) := by
  obtain ⟨od⟩ := ev
  refine ⟨?_, ?_, ?_⟩
  · intro d en hd he hen
    have hd2 : od = some d := hd
    subst hd2
    exact handler_not_match w flag d en he hen
  · intro htr
    cases od with
    | none => exact absurd rfl htr
    | some d =>
      cases he : d.eventName with
      | none =>
        exfalso
        apply htr
        simp [lambda_handler, he]
      | some en =>
        by_cases hmem : en ∈ allowList
        · exact ⟨d, en, rfl, he, hmem⟩
        · exfalso
          apply htr
          rw [handler_not_match w flag d en he hmem]
  · intro d en hd he hen hwf
    have hd2 : od = some d := hd
    subst hd2
    obtain ⟨den, dt, drp, dui⟩ := d
    obtain ⟨⟨en2, he2⟩, ⟨t, ht⟩, ⟨a, ha⟩, ⟨pid, hu, hc⟩⟩ := hwf
    have ht2 : dt = some t := ht
    have ha2 : drp = some (some a) := ha
    have hu2 : dui = some (some pid) := hu
    have he3 : den = some en := he
    subst ht2; subst ha2; subst hu2; subst he3
    obtain ⟨s0, s1, rest, hs⟩ := pySplit_two_of_mem ':' pid.toList hc
    have hp := getPrincipal_of_split ⟨some en, some t, some (some a), some (some pid)⟩
      pid s0 s1 rest rfl hs
    rw [handler_wf w flag en t a pid (String.mk s1) hp hen]
    constructor
    · exact ⟨snsSubject ⟨some en, some t, some (some a), some (some pid)⟩,
        snsBodyText en a (String.mk s1) t, by simp⟩
    · intro hflag
      subst hflag
      exact ⟨slackDoc en a (String.mk s1) t, by simp⟩

/-- C1 witness: the specification's ignored-event scenario — a
`CreateAccount` event makes no dispatch call and terminates successfully. -/
theorem C1_dispatch_iff_allowlisted_witness :
    lambda_handler ⟨true, true⟩ true ⟨some otherDetail⟩ = ⟨[], Except.ok ()⟩ :=
  (C1_dispatch_iff_allowlisted ⟨true, true⟩ true ⟨some otherDetail⟩).1
    otherDetail "CreateAccount" rfl rfl (by decide)

end Notifier
